import Mathlib

/-!
Shallow embedding of the Agent Coordination Engine of copilot-agent-mesh:
the in-memory `MessageBus` (mailboxes + task board, `src/message-bus.ts`)
and the single-flight, turn-limited dispatch discipline of
`Orchestrator.sendToAgent` (`src/orchestrator.ts`).

JavaScript `Map`s are modelled as association lists (insertion-ordered,
unique keys by construction, exact string-key equality, `Map.set` on an
existing key replaces in place, on a fresh key appends).  Thrown `Error`s
are modelled as structured `BusError` values distinguishing the error
classes the code's messages distinguish.  `Date.now()` is threaded as an
explicit `now : Nat` argument.
-/

namespace CopilotAgentMesh

/-- `TaskStatus` of message-bus.ts: "pending" | "in-progress" | "completed" | "failed". -/
inductive TaskStatus
  | pending
  | inProgress
  | completed
  | failed
  deriving DecidableEq, Repr

/-- `AgentMessage` of message-bus.ts.  The source field `from` is a Lean
keyword and is rendered `sender`; `id` is rendered `msgId` to avoid clashing
with `Task.id` in proofs. -/
structure AgentMessage where
  msgId : String
  sender : String
  recipient : String
  content : String
  timestamp : Nat
  read : Bool
  deriving DecidableEq, Repr

/-- `Task` of message-bus.ts.  Optional fields `assignee?` and `result?`
become `Option String`. -/
structure Task where
  id : String
  description : String
  status : TaskStatus
  assignee : Option String
  createdBy : String
  dependsOn : List String
  result : Option String
  createdAt : Nat
  updatedAt : Nat
  deriving DecidableEq, Repr

/-- The distinct `Error`s thrown by MessageBus methods, named after the
spec's error taxonomy; each constructor carries the data interpolated into
the corresponding thrown message string. -/
inductive BusError
  | unknownRecipient (recipient : String)
  | taskNotFound (taskId : String)
  | notClaimable (taskId : String) (status : TaskStatus)
  | dependencyBlocked (taskId : String) (depId : String) (status : TaskStatus)
  | notAssignedToCaller (taskId : String) (agentId : String)
  deriving DecidableEq, Repr

/-- Association-list lookup with exact string-key equality (JS `Map.get`). -/
def lookupKey {α : Type} (l : List (String × α)) (k : String) : Option α :=
  match l with
  | [] => none
  | (k2, v) :: rest => if k2 = k then some v else lookupKey rest k

/-- `Map.set` on a key already present: replace the stored value in place. -/
def setKey {α : Type} (l : List (String × α)) (k : String) (v : α) :
    List (String × α) :=
  l.map (fun p => if p.1 = k then (k, v) else p)

/-- `Map.delete`. -/
def eraseKey {α : Type} (l : List (String × α)) (k : String) :
    List (String × α) :=
  l.filter (fun p => p.1 ≠ k)

/-- The mutable state of one `MessageBus` instance. -/
structure MessageBus where
  mailboxes : List (String × List AgentMessage)
  tasks : List (String × Task)
  msgCounter : Nat
  taskCounter : Nat
  deriving DecidableEq, Repr

/-- A freshly constructed `MessageBus` (also the state after `reset()`). -/
def emptyBus : MessageBus :=
  { mailboxes := [], tasks := [], msgCounter := 0, taskCounter := 0 }

/-- `registerAgent(agentId)`: idempotent, creates an empty mailbox if absent
(JS `Map.set` on a fresh key appends). -/
def registerAgent (bus : MessageBus) (agentId : String) : MessageBus :=
  if (lookupKey bus.mailboxes agentId).isSome then bus
  else { bus with mailboxes := bus.mailboxes ++ [(agentId, [])] }

/-- `unregisterAgent(agentId)`. -/
def unregisterAgent (bus : MessageBus) (agentId : String) : MessageBus :=
  { bus with mailboxes := eraseKey bus.mailboxes agentId }

/-- `getRegisteredAgents()`. -/
def getRegisteredAgents (bus : MessageBus) : List String :=
  bus.mailboxes.map Prod.fst

/-- The broadcast loop of `sendMessage`: push `\x7b...msg, to: agentId\x7d` onto
every mailbox except the sender's. -/
def broadcastDeliver (mbs : List (String × List AgentMessage)) (sender : String)
    (msg : AgentMessage) : List (String × List AgentMessage) :=
  mbs.map (fun p =>
    if p.1 = sender then p else (p.1, p.2 ++ [{ msg with recipient := p.1 }]))

/-- The message record `sendMessage` constructs before delivering: fresh
`msg-N` id from the incremented counter, unread, stamped `now`. -/
def mkMessage (bus : MessageBus) (sender recipient content : String)
    (now : Nat) : AgentMessage :=
  { msgId := "msg-" ++ toString (bus.msgCounter + 1), sender := sender,
    recipient := recipient, content := content, timestamp := now,
    read := false }

/-- `sendMessage(from, to, content)`.  The counter is incremented before the
unknown-recipient check, so the state is returned alongside the result even
on failure. -/
def sendMessage (bus : MessageBus) (sender recipient content : String) (now : Nat) :
    Except BusError AgentMessage × MessageBus :=
  let counter := bus.msgCounter + 1
  let msg : AgentMessage := mkMessage bus sender recipient content now
  if recipient = "*" then
    (Except.ok msg,
     { bus with mailboxes := broadcastDeliver bus.mailboxes sender msg,
                msgCounter := counter })
  else
    match lookupKey bus.mailboxes recipient with
    | none => (Except.error (BusError.unknownRecipient recipient),
               { bus with msgCounter := counter })
    | some box =>
        (Except.ok msg,
         { bus with mailboxes := setKey bus.mailboxes recipient (box ++ [msg]),
                    msgCounter := counter })

/-- `readMessages(agentId, markRead)`: returns the unread messages in
mailbox order; when `markRead`, flips their `read` flag in the mailbox. -/
def readMessages (bus : MessageBus) (agentId : String) (markRead : Bool) :
    List AgentMessage × MessageBus :=
  match lookupKey bus.mailboxes agentId with
  | none => ([], bus)
  | some box =>
      let unread := box.filter (fun m => !m.read)
      if markRead then
        let marked := box.map (fun m => if m.read then m else { m with read := true })
        (unread, { bus with mailboxes := setKey bus.mailboxes agentId marked })
      else (unread, bus)

/-- `hasUnreadMessages(agentId)`. -/
def hasUnreadMessages (bus : MessageBus) (agentId : String) : Bool :=
  match lookupKey bus.mailboxes agentId with
  | none => false
  | some box => box.any (fun m => !m.read)

/-- `createTask(description, createdBy, {assignee?, dependsOn?})`. -/
def createTask (bus : MessageBus) (description createdBy : String)
    (assignee : Option String) (dependsOn : List String) (now : Nat) :
    Task × MessageBus :=
  let counter := bus.taskCounter + 1
  let task : Task :=
    { id := "task-" ++ toString counter, description := description,
      status := TaskStatus.pending, createdBy := createdBy,
      assignee := assignee, dependsOn := dependsOn, result := none,
      createdAt := now, updatedAt := now }
  (task, { bus with tasks := bus.tasks ++ [(task.id, task)],
                    taskCounter := counter })

/-- The dependency-check loop of `claimTask`: the first `dependsOn` entry
that resolves to an existing task whose status is not `completed`, together
with that status; entries that do not resolve are skipped (`dep &&`). -/
def firstBlockedDep (bus : MessageBus) (deps : List String) :
    Option (String × TaskStatus) :=
  match deps with
  | [] => none
  | d :: rest =>
      match lookupKey bus.tasks d with
      | some dep =>
          if dep.status ≠ TaskStatus.completed then some (d, dep.status)
          else firstBlockedDep bus rest
      | none => firstBlockedDep bus rest

/-- `claimTask(taskId, agentId)`. -/
def claimTask (bus : MessageBus) (taskId agentId : String) (now : Nat) :
    Except BusError Task × MessageBus :=
  match lookupKey bus.tasks taskId with
  | none => (Except.error (BusError.taskNotFound taskId), bus)
  | some task =>
      if task.status ≠ TaskStatus.pending then
        (Except.error (BusError.notClaimable taskId task.status), bus)
      else
        match firstBlockedDep bus task.dependsOn with
        | some (d, st) =>
            (Except.error (BusError.dependencyBlocked taskId d st), bus)
        | none =>
            let t := { task with assignee := some agentId,
                                 status := TaskStatus.inProgress,
                                 updatedAt := now }
            (Except.ok t, { bus with tasks := setKey bus.tasks taskId t })

/-- `completeTask(taskId, agentId, result)`. -/
def completeTask (bus : MessageBus) (taskId agentId result : String)
    (now : Nat) : Except BusError Task × MessageBus :=
  match lookupKey bus.tasks taskId with
  | none => (Except.error (BusError.taskNotFound taskId), bus)
  | some task =>
      if task.assignee ≠ some agentId then
        (Except.error (BusError.notAssignedToCaller taskId agentId), bus)
      else
        let t := { task with status := TaskStatus.completed,
                             result := some result, updatedAt := now }
        (Except.ok t, { bus with tasks := setKey bus.tasks taskId t })

/-- `failTask(taskId, agentId, reason)`.  Note: the source checks only task
existence; it does not compare `assignee` with `agentId`. -/
def failTask (bus : MessageBus) (taskId agentId reason : String) (now : Nat) :
    Except BusError Task × MessageBus :=
  match lookupKey bus.tasks taskId with
  | none => (Except.error (BusError.taskNotFound taskId), bus)
  | some task =>
      let t := { task with status := TaskStatus.failed,
                           result := some reason, updatedAt := now }
      (Except.ok t, { bus with tasks := setKey bus.tasks taskId t })

/-- `getTask(taskId)`. -/
def getTask (bus : MessageBus) (taskId : String) : Option Task :=
  lookupKey bus.tasks taskId

/-!
The Dispatch Gate of `Orchestrator.sendToAgent`.  Only the per-worker state
the gate reads and writes is modelled: the `busy` single-flight flag of a
`ManagedAgent` and the worker's entry in `turnCounts`.  The single-threaded
runtime executes `sendToAgent` atomically up to the `await` of
`session.sendAndWait`, so the call is split at that suspension point:
`dispatchStart` is the synchronous prefix (turn check, busy check / enqueue,
increment, `busy = true`), `dispatchSettle` is the `finally` block that runs
when the backend call settles, whether it resolved or rejected (the `catch`
block only logs).  `sendToAgent` composes the two for a call that runs to
completion without interleaving.
-/

/-- The dispatch-relevant state of one worker: the `busy` flag of its
`ManagedAgent` record and its `turnCounts` entry. -/
structure ManagedWorker where
  busy : Bool
  turnCount : Nat
  deriving DecidableEq, Repr

/-- What the synchronous prefix of `sendToAgent` decides to do. -/
inductive DispatchOutcome
  | dropped
  | enqueued
  | started
  deriving DecidableEq, Repr

/-- The synchronous prefix of `sendToAgent`, up to the backend invocation:
turn-limit check, busy check (enqueue into the session's own queue), else
increment the turn count and raise the `busy` flag. -/
def dispatchStart (maxTurns : Nat) (w : ManagedWorker) :
    ManagedWorker × DispatchOutcome :=
  if maxTurns ≤ w.turnCount then (w, DispatchOutcome.dropped)
  else if w.busy then (w, DispatchOutcome.enqueued)
  else ({ busy := true, turnCount := w.turnCount + 1 }, DispatchOutcome.started)

/-- The `finally` block of `sendToAgent`: clear the `busy` flag.  It runs
whether `sendAndWait` resolved or rejected. -/
def dispatchSettle (w : ManagedWorker) : ManagedWorker :=
  { w with busy := false }

/-- The observable outcome of a complete `sendToAgent` call;
`invoked backendOk` records whether the single `sendAndWait` call resolved
(`true`) or rejected (`false`). -/
inductive SendResult
  | dropped
  | enqueued
  | invoked (backendOk : Bool)
  deriving DecidableEq, Repr

/-- A complete `sendToAgent` call with no interleaved dispatch: the
synchronous prefix, then, when the backend was invoked, the settle path. -/
def sendToAgent (maxTurns : Nat) (w : ManagedWorker) (backendOk : Bool) :
    ManagedWorker × SendResult :=
  match dispatchStart maxTurns w with
  | (w1, DispatchOutcome.dropped) => (w1, SendResult.dropped)
  | (w1, DispatchOutcome.enqueued) => (w1, SendResult.enqueued)
  | (w1, DispatchOutcome.started) =>
      (dispatchSettle w1, SendResult.invoked backendOk)

/-!  Helper lemmas about the association-list operations.  -/

/-- Unfolding `lookupKey` on a cons cell. -/
theorem lookupKey_cons {α : Type} (k2 : String) (v : α)
    (rest : List (String × α)) (k : String) :
    lookupKey ((k2, v) :: rest) k = if k2 = k then some v else lookupKey rest k :=
  rfl

/-- Unfolding `setKey` on a cons cell. -/
theorem setKey_cons {α : Type} (k2 : String) (w : α) (rest : List (String × α))
    (k : String) (v : α) :
    setKey ((k2, w) :: rest) k v =
      (if k2 = k then (k, v) else (k2, w)) :: setKey rest k v :=
  rfl

/-- Unfolding `broadcastDeliver` on a cons cell. -/
theorem broadcastDeliver_cons (k2 : String) (box : List AgentMessage)
    (rest : List (String × List AgentMessage)) (sender : String)
    (msg : AgentMessage) :
    broadcastDeliver ((k2, box) :: rest) sender msg =
      (if k2 = sender then (k2, box)
       else (k2, box ++ [{ msg with recipient := k2 }])) ::
        broadcastDeliver rest sender msg :=
  rfl

/-- Replacing key `k` changes exactly the value found at `k`. -/
theorem lookupKey_setKey_self {α : Type} (l : List (String × α)) (k : String)
    (v : α) : lookupKey (setKey l k v) k = (lookupKey l k).map (fun _ => v) := by
  induction l with
  | nil => rfl
  | cons p rest ih =>
      obtain ⟨k2, w⟩ := p
      rw [setKey_cons]
      by_cases h : k2 = k
      · subst h
        rw [if_pos rfl, lookupKey_cons, if_pos rfl, lookupKey_cons, if_pos rfl]
        rfl
      · rw [if_neg h, lookupKey_cons, if_neg h, lookupKey_cons, if_neg h, ih]

/-- Replacing key `k` leaves every other key's value unchanged. -/
theorem lookupKey_setKey_ne {α : Type} (l : List (String × α)) (k k' : String)
    (v : α) (h : k' ≠ k) : lookupKey (setKey l k v) k' = lookupKey l k' := by
  induction l with
  | nil => rfl
  | cons p rest ih =>
      obtain ⟨k2, w⟩ := p
      rw [setKey_cons]
      by_cases h2 : k2 = k
      · subst h2
        rw [if_pos rfl, lookupKey_cons, if_neg (Ne.symm h), lookupKey_cons,
            if_neg (Ne.symm h), ih]
      · rw [if_neg h2, lookupKey_cons, lookupKey_cons]
        by_cases h3 : k2 = k'
        · rw [if_pos h3, if_pos h3]
        · rw [if_neg h3, if_neg h3, ih]

/-- Broadcast leaves the sender's mailbox unchanged. -/
theorem lookupKey_broadcastDeliver_self (mbs : List (String × List AgentMessage))
    (sender : String) (msg : AgentMessage) :
    lookupKey (broadcastDeliver mbs sender msg) sender = lookupKey mbs sender := by
  induction mbs with
  | nil => rfl
  | cons p rest ih =>
      obtain ⟨k2, box⟩ := p
      rw [broadcastDeliver_cons]
      by_cases h : k2 = sender
      · rw [if_pos h, lookupKey_cons, lookupKey_cons, ih]
      · rw [if_neg h, lookupKey_cons, if_neg h, lookupKey_cons, if_neg h, ih]

/-- Broadcast appends the copy addressed to `a` to every mailbox `a` other
than the sender's. -/
theorem lookupKey_broadcastDeliver_ne (mbs : List (String × List AgentMessage))
    (sender a : String) (msg : AgentMessage) (h : a ≠ sender) :
    lookupKey (broadcastDeliver mbs sender msg) a =
      (lookupKey mbs a).map (fun box => box ++ [{ msg with recipient := a }]) := by
  induction mbs with
  | nil => rfl
  | cons p rest ih =>
      obtain ⟨k2, box⟩ := p
      rw [broadcastDeliver_cons]
      by_cases h2 : k2 = sender
      · subst h2
        rw [if_pos rfl, lookupKey_cons, if_neg (Ne.symm h), lookupKey_cons,
            if_neg (Ne.symm h), ih]
      · rw [if_neg h2, lookupKey_cons, lookupKey_cons]
        by_cases h3 : k2 = a
        · subst h3
          rw [if_pos rfl, if_pos rfl]
          rfl
        · rw [if_neg h3, if_neg h3, ih]

/-- The dependency loop finds no blocker exactly when every `dependsOn`
entry that resolves to an existing task has status `completed`. -/
theorem firstBlockedDep_eq_none_iff (bus : MessageBus) (deps : List String) :
    firstBlockedDep bus deps = none ↔
      ∀ d ∈ deps, ∀ dep, lookupKey bus.tasks d = some dep →
        dep.status = TaskStatus.completed := by
  induction deps with
  | nil => simp [firstBlockedDep]
  | cons d rest ih =>
      cases h : lookupKey bus.tasks d with
      | none =>
          simp only [firstBlockedDep, h]
          rw [ih]
          constructor
          · intro hall d2 hd2 dep hdep
            rcases List.mem_cons.mp hd2 with h1 | h1
            · subst h1
              rw [h] at hdep
              exact absurd hdep (by simp)
            · exact hall d2 h1 dep hdep
          · intro hall d2 hd2 dep hdep
            exact hall d2 (List.mem_cons_of_mem d hd2) dep hdep
      | some dep =>
          simp only [firstBlockedDep, h]
          by_cases hc : dep.status = TaskStatus.completed
          · simp only [hc, ne_eq, not_true_eq_false, if_false]
            rw [ih]
            constructor
            · intro hall d2 hd2 dep2 hdep2
              rcases List.mem_cons.mp hd2 with h1 | h1
              · subst h1
                rw [h] at hdep2
                cases hdep2
                exact hc
              · exact hall d2 h1 dep2 hdep2
            · intro hall d2 hd2 dep2 hdep2
              exact hall d2 (List.mem_cons_of_mem d hd2) dep2 hdep2
          · simp only [ne_eq, hc, not_false_eq_true, if_true]
            constructor
            · intro hcontra
              exact absurd hcontra (by simp)
            · intro hall
              exact absurd (hall d (List.mem_cons_self d rest) dep h) hc

/-- Unfolding `sendMessage` on the broadcast target `"*"`. -/
theorem sendMessage_star (bus : MessageBus) (sender content : String)
    (now : Nat) :
    sendMessage bus sender "*" content now =
      (Except.ok (mkMessage bus sender "*" content now),
       { bus with
           mailboxes := broadcastDeliver bus.mailboxes sender
             (mkMessage bus sender "*" content now),
           msgCounter := bus.msgCounter + 1 }) :=
  rfl

/-- Marking a message read leaves its `read` flag true whether or not it was
already read. -/
theorem markOne_read (m : AgentMessage) :
    (if m.read then m else { m with read := true }).read = true := by
  by_cases hm : m.read
  · rw [if_pos hm]
    exact hm
  · rw [if_neg hm]

/-!  Claim theorems.  -/

/-- C4: a dispatch call on a busy worker that is under the turn budget
enqueues the prompt (the backend's `sendAndWait` is not invoked), leaves
`turnCount` unchanged and leaves the `busy` flag unchanged; the worker state
is returned exactly as it was, so a second dispatch overlapping an in-flight
one cannot double-invoke the backend. -/
theorem C4_busy_dispatch_enqueues (maxTurns : Nat) (w : ManagedWorker)
    (backendOk : Bool) (hbusy : w.busy = true) (hturn : w.turnCount < maxTurns) :
    sendToAgent maxTurns w backendOk = (w, SendResult.enqueued) := by
  simp [sendToAgent, dispatchStart, hbusy, Nat.not_le.mpr hturn]

/-- C4 witness: a busy worker with 3 of 20 turns used; the dispatch enqueues
and changes nothing. -/
theorem C4_busy_dispatch_enqueues_witness :
    ((true : Bool) = true ∧ 3 < 20) ∧
      sendToAgent 20 { busy := true, turnCount := 3 } true =
        ({ busy := true, turnCount := 3 }, SendResult.enqueued) :=
  ⟨⟨rfl, by decide⟩,
   C4_busy_dispatch_enqueues 20 { busy := true, turnCount := 3 } true rfl
     (by decide)⟩

/-- C5: a dispatch call made at or above the turn budget drops the prompt
and returns the worker unchanged (no backend invocation, no turn-count or
busy change); consequently a worker whose turn count is within the budget
never exceeds it after a dispatch. -/
theorem C5_turn_budget (maxTurns : Nat) (w : ManagedWorker) (backendOk : Bool) :
    (maxTurns ≤ w.turnCount →
      sendToAgent maxTurns w backendOk = (w, SendResult.dropped)) ∧
    (w.turnCount ≤ maxTurns →
      (sendToAgent maxTurns w backendOk).1.turnCount ≤ maxTurns) := by
  constructor
  · intro h
    simp [sendToAgent, dispatchStart, h]
  · intro h
    by_cases h1 : maxTurns ≤ w.turnCount
    · simp [sendToAgent, dispatchStart, h1]
      exact h
    · by_cases h2 : w.busy
      · simp [sendToAgent, dispatchStart, h1, h2]
        exact h
      · simp [sendToAgent, dispatchStart, dispatchSettle, h1, h2]
        omega

/-- C5 witness: at the cap (20 of 20) the prompt is dropped with no state
change, and the turn count stays within the cap. -/
theorem C5_turn_budget_witness :
    (20 ≤ 20 ∧
      sendToAgent 20 { busy := false, turnCount := 20 } true =
        ({ busy := false, turnCount := 20 }, SendResult.dropped)) ∧
    (20 ≤ 20 ∧
      (sendToAgent 20 { busy := false, turnCount := 20 } true).1.turnCount ≤ 20) :=
  ⟨⟨by decide,
    (C5_turn_budget 20 { busy := false, turnCount := 20 } true).1 (by decide)⟩,
   ⟨by decide,
    (C5_turn_budget 20 { busy := false, turnCount := 20 } true).2 (by decide)⟩⟩

/-- C6: a dispatch call that is admitted to the backend (worker idle, under
budget) always settles with `busy = false` — whether the backend call
resolved or rejected — and charges the turn budget exactly once. -/
theorem C6_settle_clears_busy (maxTurns : Nat) (w : ManagedWorker)
    (backendOk : Bool) (hbusy : w.busy = false) (hturn : w.turnCount < maxTurns) :
    sendToAgent maxTurns w backendOk =
      ({ busy := false, turnCount := w.turnCount + 1 },
       SendResult.invoked backendOk) := by
  simp [sendToAgent, dispatchStart, dispatchSettle, hbusy, Nat.not_le.mpr hturn]

/-- C6 witness: a rejected backend call (`backendOk = false`) still ends
with `busy = false` and the turn count incremented exactly once. -/
theorem C6_settle_clears_busy_witness :
    ((false : Bool) = false ∧ 4 < 20) ∧
      sendToAgent 20 { busy := false, turnCount := 4 } false =
        ({ busy := false, turnCount := 5 }, SendResult.invoked false) :=
  ⟨⟨rfl, by decide⟩,
   C6_settle_clears_busy 20 { busy := false, turnCount := 4 } false rfl
     (by decide)⟩

/-- The bus after `createTask("Implement auth", "lead", \x7bassignee: "bob"\x7d)`
on a fresh bus: one pending task `task-1` pre-assigned to `bob`. -/
def c1Bus : MessageBus :=
  (createTask emptyBus "Implement auth" "lead" (some "bob") [] 0).2

/-- C1 counterexample: `claimTask` does not enforce unassigned-or-self.  On
a pending task created with `assignee = "bob"`, `claimTask(task-1, "alice")`
succeeds (the claim says it must fail), overwriting the assignee. -/
theorem C1_counterexample :
    (claimTask c1Bus "task-1" "alice" 1).1 =
      Except.ok { id := "task-1", description := "Implement auth",
                  status := TaskStatus.inProgress, assignee := some "alice",
                  createdBy := "lead", dependsOn := [], result := none,
                  createdAt := 0, updatedAt := 1 } := by
  rfl

/-- C1 amended: `claimTask` checks only status and dependencies, never the
existing assignee: any agent can claim any pending, dependency-clear task,
and claiming overwrites the assignee with the claimer — even when the task
was created pre-assigned to a different agent. -/
theorem C1_amended_claim_ignores_assignee (bus : MessageBus)
    (taskId agentId : String) (now : Nat) (task : Task) (b : String)
    (hfind : lookupKey bus.tasks taskId = some task)
    (hpending : task.status = TaskStatus.pending)
    (hassignee : task.assignee = some b)
    (hne : agentId ≠ b)
    (hdeps : firstBlockedDep bus task.dependsOn = none) :
    (claimTask bus taskId agentId now).1 =
      Except.ok { task with assignee := some agentId,
                            status := TaskStatus.inProgress,
                            updatedAt := now } := by
  simp [claimTask, hfind, hpending, hdeps]

/-- C1 amended witness: on `c1Bus` (task pre-assigned to `bob`), `alice`
claims `task-1` successfully. -/
theorem C1_amended_witness :
    (claimTask c1Bus "task-1" "alice" 1).1 =
      Except.ok { id := "task-1", description := "Implement auth",
                  status := TaskStatus.inProgress, assignee := some "alice",
                  createdBy := "lead", dependsOn := [], result := none,
                  createdAt := 0, updatedAt := 1 } :=
  C1_amended_claim_ignores_assignee c1Bus "task-1" "alice" 1
    { id := "task-1", description := "Implement auth",
      status := TaskStatus.pending, assignee := some "bob",
      createdBy := "lead", dependsOn := [], result := none,
      createdAt := 0, updatedAt := 0 } "bob" rfl rfl rfl (by decide) rfl

/-- The bus after creating `task-1` (unassigned) and claiming it as
`alice`: `task-1` is in-progress with assignee `alice`. -/
def c2Bus : MessageBus :=
  (claimTask (createTask emptyBus "Task A" "lead" none [] 0).2 "task-1"
    "alice" 1).2

/-- C2 counterexample: `failTask` does not check the caller against the
assignee.  With `task-1` assigned to `alice`, `failTask(task-1, "bob", ...)`
succeeds (the claim says it must fail), marking the task failed while the
assignee is still `alice`. -/
theorem C2_counterexample :
    (failTask c2Bus "task-1" "bob" "boom" 2).1 =
      Except.ok { id := "task-1", description := "Task A",
                  status := TaskStatus.failed, assignee := some "alice",
                  createdBy := "lead", dependsOn := [], result := some "boom",
                  createdAt := 0, updatedAt := 2 } := by
  rfl

/-- C2 amended: `failTask` fails only with `TaskNotFound`; for any existing
task, any caller — assignee or not — marks it failed with the reason stored
as the result.  Only `completeTask` enforces the assignee check. -/
theorem C2_amended_failTask_any_agent (bus : MessageBus)
    (taskId agentId reason : String) (now : Nat) :
    (lookupKey bus.tasks taskId = none →
      failTask bus taskId agentId reason now =
        (Except.error (BusError.taskNotFound taskId), bus)) ∧
    (∀ task, lookupKey bus.tasks taskId = some task →
      (failTask bus taskId agentId reason now).1 =
        Except.ok { task with status := TaskStatus.failed,
                              result := some reason, updatedAt := now }) := by
  constructor
  · intro h
    simp [failTask, h]
  · intro task h
    simp [failTask, h]

/-- C2 amended witness: `bob` (not the assignee) fails `task-1`, and a
missing id reports `TaskNotFound`. -/
theorem C2_amended_witness :
    (failTask c2Bus "task-1" "bob" "boom" 2).1 =
      Except.ok { id := "task-1", description := "Task A",
                  status := TaskStatus.failed, assignee := some "alice",
                  createdBy := "lead", dependsOn := [], result := some "boom",
                  createdAt := 0, updatedAt := 2 } ∧
    failTask c2Bus "task-77" "bob" "boom" 2 =
      (Except.error (BusError.taskNotFound "task-77"), c2Bus) :=
  ⟨(C2_amended_failTask_any_agent c2Bus "task-1" "bob" "boom" 2).2
      { id := "task-1", description := "Task A",
        status := TaskStatus.inProgress, assignee := some "alice",
        createdBy := "lead", dependsOn := [], result := none,
        createdAt := 0, updatedAt := 1 } rfl,
   (C2_amended_failTask_any_agent c2Bus "task-77" "bob" "boom" 2).1 rfl⟩

/-- C3: `claimTask` fails with `TaskNotFound` when the id is unknown, with
`NotClaimable` when the task is not pending, and with `DependencyBlocked`
naming the first blocking dependency while one exists (by
`firstBlockedDep_eq_none_iff`, a blocker exists exactly while some
`dependsOn` entry resolves to a task whose status is not `completed`); and
when the task is pending and every resolving dependency is completed — in
particular immediately after the last dependency completes — the claim
succeeds, setting `assignee` to the caller and `status` to in-progress. -/
theorem C3_claimTask_spec (bus : MessageBus) (taskId agentId : String)
    (now : Nat) :
    (lookupKey bus.tasks taskId = none →
      claimTask bus taskId agentId now =
        (Except.error (BusError.taskNotFound taskId), bus)) ∧
    (∀ task, lookupKey bus.tasks taskId = some task →
      task.status ≠ TaskStatus.pending →
      claimTask bus taskId agentId now =
        (Except.error (BusError.notClaimable taskId task.status), bus)) ∧
    (∀ task d st, lookupKey bus.tasks taskId = some task →
      task.status = TaskStatus.pending →
      firstBlockedDep bus task.dependsOn = some (d, st) →
      claimTask bus taskId agentId now =
        (Except.error (BusError.dependencyBlocked taskId d st), bus)) ∧
    (∀ task, lookupKey bus.tasks taskId = some task →
      task.status = TaskStatus.pending →
      (∀ d ∈ task.dependsOn, ∀ dep, lookupKey bus.tasks d = some dep →
        dep.status = TaskStatus.completed) →
      claimTask bus taskId agentId now =
        (Except.ok ({ task with assignee := some agentId,
                                status := TaskStatus.inProgress,
                                updatedAt := now }),
         { bus with tasks := setKey bus.tasks taskId ({ task with
             assignee := some agentId, status := TaskStatus.inProgress,
             updatedAt := now }) })) := by
  refine ⟨?_, ?_, ?_, ?_⟩
  · intro h
    simp [claimTask, h]
  · intro task h hstat
    simp [claimTask, h, hstat]
  · intro task d st h hstat hfb
    simp [claimTask, h, hstat, hfb]
  · intro task h hstat hdeps
    have hfb := (firstBlockedDep_eq_none_iff bus task.dependsOn).mpr hdeps
    simp [claimTask, h, hstat, hfb]

/-- Scenario bus: `task-1` ("Task A", no dependencies) and `task-2`
("Task B", depends on `task-1`), both pending. -/
def c3BusBlocked : MessageBus :=
  (createTask (createTask emptyBus "Task A" "lead" none [] 0).2 "Task B"
    "lead" none ["task-1"] 0).2

/-- Scenario bus after `task-1` was claimed by `alice` and completed:
`task-2` is still pending and its only dependency is completed. -/
def c3Bus : MessageBus :=
  (completeTask (claimTask c3BusBlocked "task-1" "alice" 1).2 "task-1"
    "alice" "Done" 2).2

/-- The claimed form of `task-2` used by the C3 witness. -/
def c3Task2Claimed : Task :=
  { id := "task-2", description := "Task B", status := TaskStatus.inProgress,
    assignee := some "bob", createdBy := "lead", dependsOn := ["task-1"],
    result := none, createdAt := 0, updatedAt := 9 }

/-- C3 witness: a missing id reports `TaskNotFound`; the completed `task-1`
reports `NotClaimable`; `task-2` is `DependencyBlocked` while `task-1` is
pending, and claims successfully once `task-1` is completed. -/
theorem C3_claimTask_spec_witness :
    claimTask c3Bus "task-99" "bob" 9 =
      (Except.error (BusError.taskNotFound "task-99"), c3Bus) ∧
    claimTask c3Bus "task-1" "bob" 9 =
      (Except.error (BusError.notClaimable "task-1" TaskStatus.completed),
       c3Bus) ∧
    claimTask c3BusBlocked "task-2" "bob" 9 =
      (Except.error
        (BusError.dependencyBlocked "task-2" "task-1" TaskStatus.pending),
       c3BusBlocked) ∧
    claimTask c3Bus "task-2" "bob" 9 =
      (Except.ok c3Task2Claimed,
       { c3Bus with tasks := setKey c3Bus.tasks "task-2" c3Task2Claimed }) := by
  refine ⟨?_, ?_, ?_, ?_⟩
  · exact (C3_claimTask_spec c3Bus "task-99" "bob" 9).1 rfl
  · exact (C3_claimTask_spec c3Bus "task-1" "bob" 9).2.1
      { id := "task-1", description := "Task A",
        status := TaskStatus.completed, assignee := some "alice",
        createdBy := "lead", dependsOn := [], result := some "Done",
        createdAt := 0, updatedAt := 2 } rfl (by decide)
  · exact (C3_claimTask_spec c3BusBlocked "task-2" "bob" 9).2.2.1
      { id := "task-2", description := "Task B",
        status := TaskStatus.pending, assignee := none, createdBy := "lead",
        dependsOn := ["task-1"], result := none, createdAt := 0,
        updatedAt := 0 } "task-1" TaskStatus.pending rfl rfl rfl
  · exact (C3_claimTask_spec c3Bus "task-2" "bob" 9).2.2.2
      { id := "task-2", description := "Task B",
        status := TaskStatus.pending, assignee := none, createdBy := "lead",
        dependsOn := ["task-1"], result := none, createdAt := 0,
        updatedAt := 0 } rfl rfl
      ((firstBlockedDep_eq_none_iff c3Bus _).mp rfl)

/-- C9: `completeTask` fails with `TaskNotFound` for a missing id and with
`NotAssignedToCaller` whenever the task's assignee differs from the caller;
whenever the assignee equals the caller it succeeds with no condition on
the task's current status — a still-pending pre-assigned task can be
completed without being claimed, and a completed or failed task can be
completed again, overwriting its result. -/
theorem C9_completeTask_spec (bus : MessageBus)
    (taskId agentId result : String) (now : Nat) :
    (lookupKey bus.tasks taskId = none →
      completeTask bus taskId agentId result now =
        (Except.error (BusError.taskNotFound taskId), bus)) ∧
    (∀ task, lookupKey bus.tasks taskId = some task →
      task.assignee ≠ some agentId →
      completeTask bus taskId agentId result now =
        (Except.error (BusError.notAssignedToCaller taskId agentId), bus)) ∧
    (∀ task, lookupKey bus.tasks taskId = some task →
      task.assignee = some agentId →
      completeTask bus taskId agentId result now =
        (Except.ok ({ task with status := TaskStatus.completed,
                                result := some result, updatedAt := now }),
         { bus with tasks := setKey bus.tasks taskId ({ task with
             status := TaskStatus.completed, result := some result,
             updatedAt := now }) })) := by
  refine ⟨?_, ?_, ?_⟩
  · intro h
    simp [completeTask, h]
  · intro task h hne
    simp [completeTask, h, hne]
  · intro task h heq
    simp [completeTask, h, heq]

/-- Bus with `task-1` created pre-assigned to `alice` and never claimed:
it is still pending. -/
def c9Bus : MessageBus :=
  (createTask emptyBus "Implement auth" "lead" (some "alice") [] 0).2

/-- The completed form of `task-1` used by the C9 witness. -/
def c9Task1Done : Task :=
  { id := "task-1", description := "Implement auth",
    status := TaskStatus.completed, assignee := some "alice",
    createdBy := "lead", dependsOn := [], result := some "All done",
    createdAt := 0, updatedAt := 3 }

/-- The re-completed form of `task-1` used by the C9 witness. -/
def c9Task1Redone : Task :=
  { id := "task-1", description := "Implement auth",
    status := TaskStatus.completed, assignee := some "alice",
    createdBy := "lead", dependsOn := [], result := some "Again",
    createdAt := 0, updatedAt := 4 }

/-- C9 witness: `bob` cannot complete `alice`'s task; `alice` completes the
still-pending, never-claimed task; completing the already-completed task
again succeeds and overwrites the result; a missing id is `TaskNotFound`. -/
theorem C9_completeTask_spec_witness :
    completeTask c9Bus "task-9" "alice" "x" 3 =
      (Except.error (BusError.taskNotFound "task-9"), c9Bus) ∧
    completeTask c9Bus "task-1" "bob" "x" 3 =
      (Except.error (BusError.notAssignedToCaller "task-1" "bob"), c9Bus) ∧
    completeTask c9Bus "task-1" "alice" "All done" 3 =
      (Except.ok c9Task1Done,
       { c9Bus with tasks := setKey c9Bus.tasks "task-1" c9Task1Done }) ∧
    (completeTask (completeTask c9Bus "task-1" "alice" "All done" 3).2
        "task-1" "alice" "Again" 4).1 = Except.ok c9Task1Redone := by
  refine ⟨?_, ?_, ?_, ?_⟩
  · exact (C9_completeTask_spec c9Bus "task-9" "alice" "x" 3).1 rfl
  · exact (C9_completeTask_spec c9Bus "task-1" "bob" "x" 3).2.1
      { id := "task-1", description := "Implement auth",
        status := TaskStatus.pending, assignee := some "alice",
        createdBy := "lead", dependsOn := [], result := none,
        createdAt := 0, updatedAt := 0 } rfl (by decide)
  · exact (C9_completeTask_spec c9Bus "task-1" "alice" "All done" 3).2.2
      { id := "task-1", description := "Implement auth",
        status := TaskStatus.pending, assignee := some "alice",
        createdBy := "lead", dependsOn := [], result := none,
        createdAt := 0, updatedAt := 0 } rfl rfl
  · have h := (C9_completeTask_spec
      (completeTask c9Bus "task-1" "alice" "All done" 3).2 "task-1" "alice"
      "Again" 4).2.2 c9Task1Done rfl rfl
    rw [h]
    rfl

/-- C10 (implicit): `claimTask` treats a `dependsOn` entry that does not
resolve to any existing task as satisfied — a pending task whose
`dependsOn` contains ids absent from the task map is claimable whenever
every entry that does resolve is completed, rather than being blocked
forever. -/
theorem C10_dangling_dependency_claimable (bus : MessageBus)
    (taskId agentId : String) (now : Nat) (task : Task)
    (hfind : lookupKey bus.tasks taskId = some task)
    (hpending : task.status = TaskStatus.pending)
    (hdangling : ∃ d ∈ task.dependsOn, lookupKey bus.tasks d = none)
    (hresolved : ∀ d ∈ task.dependsOn, ∀ dep,
      lookupKey bus.tasks d = some dep → dep.status = TaskStatus.completed) :
    (claimTask bus taskId agentId now).1 =
      Except.ok { task with assignee := some agentId,
                            status := TaskStatus.inProgress,
                            updatedAt := now } := by
  have hfb := (firstBlockedDep_eq_none_iff bus task.dependsOn).mpr hresolved
  simp [claimTask, hfind, hpending, hfb]

/-- Bus with `task-1` pending whose only dependency id `ghost` was never
created. -/
def c10Bus : MessageBus :=
  (createTask emptyBus "Task A" "lead" none ["ghost"] 0).2

/-- C10 witness: the task with the dangling dependency `ghost` is claimed
immediately. -/
theorem C10_dangling_dependency_claimable_witness :
    (claimTask c10Bus "task-1" "alice" 1).1 =
      Except.ok { id := "task-1", description := "Task A",
                  status := TaskStatus.inProgress, assignee := some "alice",
                  createdBy := "lead", dependsOn := ["ghost"], result := none,
                  createdAt := 0, updatedAt := 1 } :=
  C10_dangling_dependency_claimable c10Bus "task-1" "alice" 1
    { id := "task-1", description := "Task A", status := TaskStatus.pending,
      assignee := none, createdBy := "lead", dependsOn := ["ghost"],
      result := none, createdAt := 0, updatedAt := 0 } rfl rfl
    ⟨"ghost", by simp, rfl⟩
    (fun d hd dep hdep => by
      simp at hd
      subst hd
      rw [show lookupKey c10Bus.tasks "ghost" = none from rfl] at hdep
      cases hdep)

/-- C7: for a registered id, `readMessages` returns exactly the
currently-unread messages of that mailbox, in mailbox (arrival) order; with
`markRead = true`, `hasUnreadMessages` is false immediately afterwards; for
an unknown id it returns the empty sequence and leaves the bus untouched;
and reading never removes or reorders mailbox messages (the resulting
mailbox equals the original up to `read` flags) nor touches any other
mailbox. -/
theorem C7_readMessages_spec (bus : MessageBus) (agentId : String)
    (markRead : Bool) :
    (lookupKey bus.mailboxes agentId = none →
      readMessages bus agentId markRead = ([], bus)) ∧
    (∀ box, lookupKey bus.mailboxes agentId = some box →
      (readMessages bus agentId markRead).1 =
          box.filter (fun m => !m.read) ∧
      hasUnreadMessages (readMessages bus agentId true).2 agentId = false ∧
      ∃ box2,
        lookupKey (readMessages bus agentId markRead).2.mailboxes agentId =
            some box2 ∧
          box2.map (fun m => { m with read := false }) =
            box.map (fun m => { m with read := false })) ∧
    (∀ b, b ≠ agentId →
      lookupKey (readMessages bus agentId markRead).2.mailboxes b =
        lookupKey bus.mailboxes b) := by
  refine ⟨?_, ?_, ?_⟩
  · intro h
    cases markRead <;> simp [readMessages, h]
  · intro box h
    refine ⟨?_, ?_, ?_⟩
    · cases markRead <;> simp [readMessages, h]
    · have hmb : lookupKey (setKey bus.mailboxes agentId
          (box.map (fun m => if m.read then m else { m with read := true })))
            agentId =
          some (box.map (fun m => if m.read then m else { m with read := true })) := by
        rw [lookupKey_setKey_self, h]
        rfl
      simp [readMessages, h, hasUnreadMessages, hmb, List.any_map,
        Function.comp, markOne_read]
    · cases markRead with
      | false => exact ⟨box, by simp [readMessages, h], rfl⟩
      | true =>
          refine ⟨box.map (fun m => if m.read then m else { m with read := true }),
            ?_, ?_⟩
          · simp [readMessages, h]
            rw [lookupKey_setKey_self, h]
            rfl
          · rw [List.map_map]
            congr 1
            funext m
            by_cases hm : m.read
            · simp [Function.comp, hm]
            · simp [Function.comp, hm]
  · intro b hb
    cases hbox : lookupKey bus.mailboxes agentId with
    | none => cases markRead <;> simp [readMessages, hbox]
    | some box =>
        cases markRead with
        | false => simp [readMessages, hbox]
        | true =>
            simp [readMessages, hbox]
            rw [lookupKey_setKey_ne _ _ _ _ hb]

/-- Two unread messages from `lead` in `alice`'s mailbox, sent in order. -/
def c7Bus : MessageBus :=
  (sendMessage (sendMessage
    (registerAgent (registerAgent emptyBus "lead") "alice")
    "lead" "alice" "first" 1).2 "lead" "alice" "second" 2).2

/-- C7 witness: `alice`'s two messages come back in send order, reading
marks them read, an unknown id reads as empty, and `lead`'s mailbox is
untouched. -/
theorem C7_readMessages_spec_witness :
    (readMessages c7Bus "alice" true).1 =
      [{ msgId := "msg-1", sender := "lead", recipient := "alice",
         content := "first", timestamp := 1, read := false },
       { msgId := "msg-2", sender := "lead", recipient := "alice",
         content := "second", timestamp := 2, read := false }] ∧
    hasUnreadMessages (readMessages c7Bus "alice" true).2 "alice" = false ∧
    readMessages c7Bus "ghost" true = ([], c7Bus) ∧
    lookupKey (readMessages c7Bus "alice" true).2.mailboxes "lead" =
      lookupKey c7Bus.mailboxes "lead" := by
  have h := C7_readMessages_spec c7Bus "alice" true
  have hbox := h.2.1 _ rfl
  refine ⟨?_, hbox.2.1, ?_, ?_⟩
  · rw [hbox.1]
    rfl
  · exact (C7_readMessages_spec c7Bus "ghost" true).1 rfl
  · exact h.2.2 "lead" (by decide)

/-- C8: broadcast `sendMessage(from, "*", content)` appends a copy with the
`to` field rewritten to the recipient to every registered mailbox except
the sender's, leaves the sender's mailbox unchanged and delivers nothing
to unregistered ids; directed `sendMessage(from, to, content)` with an
unregistered `to` fails with `UnknownRecipient` delivering nothing, and
with a registered `to` appends exactly one message to that mailbox and no
other. -/
theorem C8_sendMessage_spec (bus : MessageBus)
    (sender recipient content : String) (now : Nat) :
    ((sendMessage bus sender "*" content now).1 =
        Except.ok (mkMessage bus sender "*" content now)) ∧
    (∀ a box, a ≠ sender → lookupKey bus.mailboxes a = some box →
      lookupKey (sendMessage bus sender "*" content now).2.mailboxes a =
        some (box ++
          [{ mkMessage bus sender "*" content now with recipient := a }])) ∧
    (lookupKey (sendMessage bus sender "*" content now).2.mailboxes sender =
      lookupKey bus.mailboxes sender) ∧
    (∀ a, lookupKey bus.mailboxes a = none →
      lookupKey (sendMessage bus sender "*" content now).2.mailboxes a =
        none) ∧
    (recipient ≠ "*" → lookupKey bus.mailboxes recipient = none →
      sendMessage bus sender recipient content now =
        (Except.error (BusError.unknownRecipient recipient),
         { bus with msgCounter := bus.msgCounter + 1 })) ∧
    (recipient ≠ "*" →
      ∀ box, lookupKey bus.mailboxes recipient = some box →
        (sendMessage bus sender recipient content now).1 =
            Except.ok (mkMessage bus sender recipient content now) ∧
          lookupKey
              (sendMessage bus sender recipient content now).2.mailboxes
              recipient =
            some (box ++ [mkMessage bus sender recipient content now]) ∧
          ∀ b, b ≠ recipient →
            lookupKey
                (sendMessage bus sender recipient content now).2.mailboxes
                b =
              lookupKey bus.mailboxes b) := by
  refine ⟨?_, ?_, ?_, ?_, ?_, ?_⟩
  · rw [sendMessage_star]
  · intro a box ha hbox
    rw [sendMessage_star]
    rw [show ((Except.ok (mkMessage bus sender "*" content now),
        { bus with
            mailboxes := broadcastDeliver bus.mailboxes sender
              (mkMessage bus sender "*" content now),
            msgCounter := bus.msgCounter + 1 }) :
          Except BusError AgentMessage × MessageBus).2.mailboxes =
        broadcastDeliver bus.mailboxes sender
          (mkMessage bus sender "*" content now) from rfl]
    rw [lookupKey_broadcastDeliver_ne _ _ _ _ ha, hbox]
    rfl
  · rw [sendMessage_star]
    exact lookupKey_broadcastDeliver_self bus.mailboxes sender
      (mkMessage bus sender "*" content now)
  · intro a ha
    rw [sendMessage_star]
    by_cases hs : a = sender
    · subst hs
      rw [show ((Except.ok (mkMessage bus a "*" content now),
          { bus with
              mailboxes := broadcastDeliver bus.mailboxes a
                (mkMessage bus a "*" content now),
              msgCounter := bus.msgCounter + 1 }) :
            Except BusError AgentMessage × MessageBus).2.mailboxes =
          broadcastDeliver bus.mailboxes a
            (mkMessage bus a "*" content now) from rfl]
      rw [lookupKey_broadcastDeliver_self, ha]
    · rw [show ((Except.ok (mkMessage bus sender "*" content now),
          { bus with
              mailboxes := broadcastDeliver bus.mailboxes sender
                (mkMessage bus sender "*" content now),
              msgCounter := bus.msgCounter + 1 }) :
            Except BusError AgentMessage × MessageBus).2.mailboxes =
          broadcastDeliver bus.mailboxes sender
            (mkMessage bus sender "*" content now) from rfl]
      rw [lookupKey_broadcastDeliver_ne _ _ _ _ hs, ha]
      rfl
  · intro hne h
    simp [sendMessage, hne, h]
  · intro hne box hbox
    refine ⟨?_, ?_, ?_⟩
    · simp [sendMessage, hne, hbox]
    · simp only [sendMessage, if_neg hne, hbox]
      rw [lookupKey_setKey_self, hbox]
      rfl
    · intro b hb
      simp only [sendMessage, if_neg hne, hbox]
      rw [lookupKey_setKey_ne _ _ _ _ hb]

/-- Three registered agents with empty mailboxes: `lead`, `alice`, `bob`. -/
def c8Bus : MessageBus :=
  registerAgent (registerAgent (registerAgent emptyBus "lead") "alice") "bob"

/-- C8 witness: `lead`'s broadcast lands in `alice`'s and `bob`'s mailboxes
but not `lead`'s or an unregistered one; a directed send to an unknown id
fails with `UnknownRecipient`; a directed send to `alice` appends exactly
one message there and leaves `bob` untouched. -/
theorem C8_sendMessage_spec_witness :
    (sendMessage c8Bus "lead" "*" "Team update" 5).1 =
      Except.ok (mkMessage c8Bus "lead" "*" "Team update" 5) ∧
    lookupKey (sendMessage c8Bus "lead" "*" "Team update" 5).2.mailboxes
        "alice" =
      some [{ mkMessage c8Bus "lead" "*" "Team update" 5 with
              recipient := "alice" }] ∧
    lookupKey (sendMessage c8Bus "lead" "*" "Team update" 5).2.mailboxes
        "bob" =
      some [{ mkMessage c8Bus "lead" "*" "Team update" 5 with
              recipient := "bob" }] ∧
    lookupKey (sendMessage c8Bus "lead" "*" "Team update" 5).2.mailboxes
        "lead" = some [] ∧
    lookupKey (sendMessage c8Bus "lead" "*" "Team update" 5).2.mailboxes
        "ghost" = none ∧
    sendMessage c8Bus "lead" "ghost" "hi" 5 =
      (Except.error (BusError.unknownRecipient "ghost"),
       { c8Bus with msgCounter := c8Bus.msgCounter + 1 }) ∧
    lookupKey (sendMessage c8Bus "lead" "alice" "hi" 5).2.mailboxes
        "alice" =
      some [mkMessage c8Bus "lead" "alice" "hi" 5] ∧
    lookupKey (sendMessage c8Bus "lead" "alice" "hi" 5).2.mailboxes "bob" =
      lookupKey c8Bus.mailboxes "bob" := by
  have h := C8_sendMessage_spec c8Bus "lead" "ghost" "Team update" 5
  have h2 := C8_sendMessage_spec c8Bus "lead" "alice" "hi" 5
  refine ⟨h.1, ?_, ?_, ?_, h.2.2.2.1 "ghost" rfl,
    ?_, ?_, (h2.2.2.2.2.2 (by decide) [] rfl).2.2 "bob" (by decide)⟩
  · exact h.2.1 "alice" [] (by decide) rfl
  · exact h.2.1 "bob" [] (by decide) rfl
  · rw [h.2.2.1]
    rfl
  · exact (C8_sendMessage_spec c8Bus "lead" "ghost" "hi" 5).2.2.2.2.1
      (by decide) rfl
  · exact (h2.2.2.2.2.2 (by decide) [] rfl).2.1

end CopilotAgentMesh
